import Mathlib

/-!
Verification of the resume-generation pipeline: a shallow embedding of the
data model, validation, selection and rendering code (latex/resume_sections.py,
latex/resume.py, latex/core.py, data_loader/section_loader.py), followed by
theorems settling the specification claims.

Python values are modelled by `Value`; dictionaries by association lists
(`Rec`); the mutable LaTeX string buffer by an explicit `String` threaded
through each rendering function, which returns the final buffer together with
the exception raised, if any (partial appends made before an exception are kept
in the returned buffer, as in Python).  Literal braces in emitted LaTeX are
written with the \x7b / \x7d escapes and apostrophes with \x27.
-/

namespace ResumeModel

/-- Model of the Python/JSON values the pipeline manipulates. -/
inductive Value where
  | vstr (s : String)
  | vint (n : Int)
  | vnull
  | vlist (l : List Value)
  | vmap (m : List (String × Value))

instance : Inhabited Value := ⟨Value.vnull⟩

/-- A Python dict, as an association list (keys unique in practice). -/
abbrev Rec := List (String × Value)

/-- `type(v).__name__` for the modelled values. -/
def Value.typeName : Value → String
  | .vstr _ => "str"
  | .vint _ => "int"
  | .vnull => "NoneType"
  | .vlist _ => "list"
  | .vmap _ => "dict"

def Value.isStr : Value → Bool
  | .vstr _ => true
  | _ => false

def Value.isInt : Value → Bool
  | .vint _ => true
  | _ => false

def Value.isList : Value → Bool
  | .vlist _ => true
  | _ => false

def Value.isNull : Value → Bool
  | .vnull => true
  | _ => false

def Value.isMap : Value → Bool
  | .vmap _ => true
  | _ => false

/-- Python truthiness of a value. -/
def Value.truthy : Value → Bool
  | .vstr s => !s.isEmpty
  | .vint n => n != 0
  | .vnull => false
  | .vlist l => !l.isEmpty
  | .vmap m => !m.isEmpty

/-- The integer held by a `vint` (call sites guard with `isInt`). -/
def Value.intOf : Value → Int
  | .vint n => n
  | _ => 0

/-- The element list held by a `vlist` (call sites guard with `isList`). -/
def Value.listOf : Value → List Value
  | .vlist l => l
  | _ => []

/-- The entries held by a `vmap` (call sites guard with `isMap`). -/
def Value.mapOf : Value → Rec
  | .vmap m => m
  | _ => []

mutual
/-- Python `repr` of a value. -/
def Value.pyRepr : Value → String
  | .vstr s => "\x27" ++ s ++ "\x27"
  | .vint n => toString n
  | .vnull => "None"
  | .vlist l => "[" ++ String.intercalate ", " (pyReprList l) ++ "]"
  | .vmap m => "\x7b" ++ String.intercalate ", " (pyReprMap m) ++ "\x7d"

def pyReprList : List Value → List String
  | [] => []
  | v :: vs => Value.pyRepr v :: pyReprList vs

def pyReprMap : List (String × Value) → List String
  | [] => []
  | (k, v) :: kvs => ("\x27" ++ k ++ "\x27: " ++ Value.pyRepr v) :: pyReprMap kvs
end

/-- Python `str()` of a value, as used inside f-strings. -/
def Value.fstr : Value → String
  | .vstr s => s
  | v => v.pyRepr

/-- `d[k]`-style lookup returning the first binding. -/
def recFind (r : Rec) (k : String) : Option Value :=
  List.lookup k r

/-- `k in d`. -/
def recHas (r : Rec) (k : String) : Bool :=
  (recFind r k).isSome

/-- `d[k]` where the call site has established presence; `d.get(k)`
(with `None` default) on optional fields. -/
def recGet (r : Rec) (k : String) : Value :=
  (recFind r k).getD .vnull

/-- Python exceptions raised by the pipeline. -/
inductive PyErr where
  | keyError (msg : String)
  | typeError (msg : String)
  | valueError (msg : String)
  | indexError (msg : String)
  deriving Repr, DecidableEq, Inhabited

/-- `items[:n]`: Python slice-to semantics, including negative stops. -/
def pySliceTo {α : Type} (items : List α) (n : Int) : List α :=
  if 0 ≤ n then items.take n.toNat
  else items.take ((items.length : Int) + n).toNat

/-- The effective position of index `i` in a list of length `len`: negative
indices count from the end. -/
def pyWrap (len : Nat) (i : Int) : Int :=
  if i < 0 then (len : Int) + i else i

/-- `items[v]`: Python list indexing, with negative-index wrap-around and
`IndexError` outside `[-len, len)`. -/
def pyIndex {α : Type} [Inhabited α] (items : List α) (v : Value) : Except PyErr α :=
  match v with
  | .vint i =>
      if 0 ≤ pyWrap items.length i ∧ pyWrap items.length i < (items.length : Int) then
        .ok (items.getD (pyWrap items.length i).toNat default)
      else .error (.indexError "list index out of range")
  | w => .error (.typeError ("list indices must be integers or slices, not " ++ w.typeName))

/-- `[items[i] for i in sel]`: left-to-right, first failure aborts. -/
def pyElems {α : Type} [Inhabited α] (items : List α) (sel : List Value) :
    Except PyErr (List α) :=
  sel.mapM (pyIndex items)

/-- `ListSection.apply_selection` (resume_sections.py:359-424). -/
def apply_selection {α : Type} [Inhabited α] (items : List α) (select : Value)
    (name : String) : Except PyErr (List α) :=
  match select with
  | .vnull => .ok items
  | .vint n =>
      if n < 0 then
        .error (.valueError
          (name ++ " selection count must be non-negative, got " ++ toString n))
      else
        .ok (pySliceTo items n)
  | .vlist sel =>
      if sel.all Value.isInt then
        if sel.any (fun v => v.intOf < 0 || (items.length : Int) ≤ v.intOf) then
          .error (.indexError
            (name ++ " selection index out of bounds (0-"
              ++ toString ((items.length : Int) - 1) ++ "): "
              ++ Value.pyRepr (.vlist sel)))
        else
          .ok (sel.map (fun v => items.getD v.intOf.toNat default))
      else
        .error (.typeError ("All " ++ name ++ " selection indices must be integers"))
  | _ => .error (.typeError (name ++ " select parameter must be int, list of int, or None"))

/-!
LaTeX document buffer (latex/core.py).  Rendering functions take the current
buffer and return the buffer after the call together with the exception
raised, if any.
-/

/-- A rendering outcome: the buffer after the call (partial appends kept)
and the exception raised, if any. -/
abbrev RenderResult := String × Option PyErr

/-- The string appended by `LateX.begin_section` (core.py:125-136). -/
def begin_sectionStr (title sectionType : String) : String :=
  "\\" ++ sectionType ++ "\x7b" ++ title ++ "\x7d\n"

/-- `LateX.end_section` (core.py:138-140) accepts no keyword argument, but
every section calls it as `end_section(section_type="rSection")`, so in the
real document builder the call raises this `TypeError` (after the section
content has already been appended). -/
def endSectionKwErr : PyErr :=
  .typeError "end_section() got an unexpected keyword argument \x27section_type\x27"

/-- Run a per-entry validator over a list, stopping at the first failure
(models a Python `for` loop of validator calls). -/
def validateAll (f : Rec → Option PyErr) : List Rec → Option PyErr
  | [] => none
  | r :: rs =>
      match f r with
      | some e => some e
      | none => validateAll f rs

/-!  Field-schema machinery shared by the validators. -/

/-- The Python classes appearing in the field schemas. -/
inductive PyTy where
  | pstr
  | pint
  | plist
  | pnone
  deriving Repr, DecidableEq

def PyTy.className : PyTy → String
  | .pstr => "str"
  | .pint => "int"
  | .plist => "list"
  | .pnone => "NoneType"

/-- `f"{t}"` for a class object. -/
def PyTy.classRepr (t : PyTy) : String :=
  "<class \x27" ++ t.className ++ "\x27>"

/-- An accepted type set: a single class or a 2-tuple of classes. -/
inductive TySpec where
  | one (t : PyTy)
  | pair (a b : PyTy)
  deriving Repr, DecidableEq

/-- `f"{t}"` for a class or tuple of classes. -/
def TySpec.pyRepr : TySpec → String
  | .one t => t.classRepr
  | .pair a b => "(" ++ a.classRepr ++ ", " ++ b.classRepr ++ ")"

/-- `isinstance(v, t)` for a single class. -/
def Value.isInst (v : Value) : PyTy → Bool
  | .pstr => v.isStr
  | .pint => v.isInt
  | .plist => v.isList
  | .pnone => v.isNull

/-- `isinstance(v, t)` for a class or tuple of classes. -/
def Value.isInstSpec (v : Value) : TySpec → Bool
  | .one t => v.isInst t
  | .pair a b => v.isInst a || v.isInst b

/-- `_validate_required_fields` (section_loader.py:23-35): fields are checked
in schema-declaration order; a missing field raises `KeyError` naming it and a
wrongly-typed field raises `TypeError` naming the field and the expected type
(the actual type is not part of the message). -/
def validate_required_fields (ctx : String) :
    List (String × TySpec) → Rec → Option PyErr
  | [], _ => none
  | (field, t) :: rest, r =>
      match recFind r field with
      | none => some (.keyError (ctx ++ " missing required field \x27" ++ field ++ "\x27"))
      | some v =>
          if !v.isInstSpec t then
            some (.typeError
              (ctx ++ " field \x27" ++ field ++ "\x27 must be of type " ++ t.pyRepr))
          else validate_required_fields ctx rest r

/-- The `for k, t in required.items()` loop shared verbatim by
`ExperienceSection._validate_experience` (resume_sections.py:611-642) and
`EducationSection._validate_education` (resume_sections.py:772-804),
parameterized by the two message prefixes the sections use.  The `TypeError`
message here ends with `got {type(...).__name__}`, naming the actual type. -/
def sectionFieldCheck (missingCtx typeCtx : String) :
    List (String × TySpec) → Rec → Option PyErr
  | [], _ => none
  | (k, t) :: rest, r =>
      match recFind r k with
      | none =>
          some (.keyError (missingCtx ++ " missing required field \x27" ++ k ++ "\x27"))
      | some v =>
          if !v.isInstSpec t then
            some (.typeError
              (typeCtx ++ " field \x27" ++ k ++ "\x27 must be of type " ++ t.pyRepr
                ++ ", got " ++ v.typeName))
          else sectionFieldCheck missingCtx typeCtx rest r

/-- `ListSection._validate_bullets_field` (resume_sections.py:333-357). -/
def validate_bullets_field (item : Rec) (name : String) : Option PyErr :=
  match recFind item "bullets" with
  | none => none
  | some .vnull => none
  | some b =>
      if !b.isList || !b.listOf.all Value.isStr then
        some (.typeError (name ++ " \x27bullets\x27 must be a list of strings or None"))
      else none

/-- `ListSection.render_bullets` (resume_sections.py:426-461). -/
def render_bullets (bullets : List Value) : String :=
  if bullets.isEmpty then ""
  else
    "\n\\begin\x7bitemize\x7d\n\\itemsep -6pt \x7b\x7d\n"
      ++ String.intercalate "\n" (bullets.map (fun b => "\\item " ++ b.fstr))
      ++ "\n\\end\x7bitemize\x7d"

/-!  Header section (resume_sections.py:10-126). -/

def headerAllowedKeys : List String :=
  ["first_name", "last_name", "phone", "location", "email", "linkedin"]

def headerRequiredKeys : List String :=
  ["first_name", "last_name", "phone", "location", "email"]

/-- The block of text `HeaderSection.add_header` appends on success. -/
def headerBlockStr (data : Rec) : String :=
  let email := (recGet data "email").fstr
  let emailLink := "\\href\x7bmailto:" ++ email ++ "\x7d\x7b" ++ email ++ "\x7d"
  let linkedin := recGet data "linkedin"
  "\n\\name\x7b" ++ (recGet data "first_name").fstr ++ " "
    ++ (recGet data "last_name").fstr ++ "\x7d"
    ++ "\n\\address\x7b" ++ (recGet data "phone").fstr ++ " \\\\ "
    ++ (recGet data "location").fstr ++ "\x7d"
    ++ (if linkedin.truthy then
          "\n\\address\x7b" ++ emailLink ++ " \\\\ "
            ++ "\\href\x7b" ++ linkedin.fstr ++ "\x7d\x7b" ++ linkedin.fstr ++ "\x7d\x7d"
        else "\n\\address\x7b" ++ emailLink ++ "\x7d")
    ++ "\n\n"

/-- `HeaderSection.add_header` called as `add_header(**data)`
(resume.py:261): Python binds the dict entries to the keyword-only
parameters, raising `TypeError` before the body runs when a key is unknown
or a required parameter is missing; otherwise the whole block is appended. -/
def add_header (data : Rec) (tex : String) : RenderResult :=
  if data.any (fun kv => !headerAllowedKeys.contains kv.fst) then
    (tex, some (.typeError "add_header() got an unexpected keyword argument"))
  else if headerRequiredKeys.any (fun k => !recHas data k) then
    (tex, some (.typeError "add_header() missing required keyword-only argument"))
  else
    (tex ++ headerBlockStr data, none)

/-!  Skills section (resume_sections.py:134-275). -/

/-- `SkillsSection._validate_skill` (resume_sections.py:180-204). -/
def validate_skill (skill : Rec) : Option PyErr :=
  if !recHas skill "category" || !recHas skill "items" then
    some (.keyError "Each skill must have \x27category\x27 and \x27items\x27")
  else if !(recGet skill "category").isStr then
    some (.typeError "\x27category\x27 must be str")
  else if !(recGet skill "items").isList
      || !(recGet skill "items").listOf.all Value.isStr then
    some (.typeError "\x27items\x27 must be a list of strings")
  else none

/-- `SkillsSection._skill_row` (resume_sections.py:206-220). -/
def skill_row (skill : Rec) : String :=
  "\n" ++ (recGet skill "category").fstr ++ " & "
    ++ String.intercalate ", " ((recGet skill "items").listOf.map Value.fstr) ++ "\\\\"

/-- `SkillsSection.add_skills` (resume_sections.py:222-275).  The success path
ends at `end_section(section_type="rSection")`, which raises. -/
def add_skills (skills : List Rec) (tex : String) : RenderResult :=
  if skills.isEmpty then (tex, none)
  else
    match validateAll validate_skill skills with
    | some e => (tex, some e)
    | none =>
        let table :=
          "\\begin\x7btabular\x7d\x7b @\x7b\x7d >\x7b\\bfseries\x7dl @\x7b\\hspace\x7b6ex\x7d\x7d p\x7b0.75\\textwidth\x7d \x7d"
            ++ String.join (skills.map skill_row)
            ++ "\n\\end\x7btabular\x7d"
        (tex ++ begin_sectionStr "SKILLS" "rSection" ++ table, some endSectionKwErr)

/-!  Generic list-based sections (resume_sections.py:283-554). -/

/-- `ListSection.add_section` (resume_sections.py:503-554), with the
`block_renderer` the subclasses always supply (the `None` default branch is
not exercised by any subclass).  On success the final
`end_section(section_type="rSection")` raises. -/
def add_section (sectionName : String) (items : List Rec) (select : Value)
    (block : Rec → String) (tex : String) : RenderResult :=
  match apply_selection items select sectionName with
  | .error e => (tex, some e)
  | .ok selected =>
      if selected.isEmpty then (tex, none)
      else
        (tex ++ begin_sectionStr sectionName "rSection"
          ++ String.join (selected.map block), some endSectionKwErr)

/-!  Experience section (resume_sections.py:562-716). -/

/-- The `required` schema of `_validate_experience`, in declaration order. -/
def expRequired : List (String × TySpec) :=
  [("role", .one .pstr), ("company", .one .pstr), ("start_date", .one .pstr),
   ("end_date", .pair .pstr .pnone), ("location", .one .pstr)]

/-- `ExperienceSection._validate_experience` (resume_sections.py:611-642). -/
def validate_experience (exp : Rec) : Option PyErr :=
  match sectionFieldCheck "Experience entry" "Experience" expRequired exp with
  | some e => some e
  | none => validate_bullets_field exp "Experience"

/-- `{x or 'Present'}`: the ongoing marker is produced for any falsy value. -/
def orPresent (v : Value) : String :=
  if v.truthy then v.fstr else "Present"

/-- The date range of an experience block: `f"{start_date} - {end_date or 'Present'}"`. -/
def expPeriod (exp : Rec) : String :=
  (recGet exp "start_date").fstr ++ " - " ++ orPresent (recGet exp "end_date")

/-- `ExperienceSection._experience_block` (resume_sections.py:644-666). -/
def experience_block (exp : Rec) : String :=
  let block :=
    "\n\\textbf\x7b" ++ (recGet exp "role").fstr ++ "\x7d \\hfill " ++ expPeriod exp
      ++ "\\\\\n" ++ (recGet exp "company").fstr ++ " \\hfill \\textit\x7b"
      ++ (recGet exp "location").fstr ++ "\x7d\n\\vspace\x7b-0.5em\x7d"
  if (recGet exp "bullets").truthy then
    block ++ render_bullets (recGet exp "bullets").listOf
  else block

/-- `ExperienceSection.add_experiences` (resume_sections.py:668-716):
validates every entry before any rendering. -/
def add_experiences (experiences : List Rec) (select : Value) (tex : String) :
    RenderResult :=
  match validateAll validate_experience experiences with
  | some e => (tex, some e)
  | none => add_section "PROFESSIONAL EXPERIENCE" experiences select experience_block tex

/-!  Education section (resume_sections.py:724-876). -/

/-- The `required` schema of `_validate_education`, in declaration order. -/
def eduRequired : List (String × TySpec) :=
  [("degree", .one .pstr), ("subject", .one .pstr), ("school", .one .pstr),
   ("start_year", .one .pint), ("end_year", .pair .pint .pnone),
   ("location", .one .pstr)]

/-- `EducationSection._validate_education` (resume_sections.py:772-804). -/
def validate_education (edu : Rec) : Option PyErr :=
  match sectionFieldCheck "Education entry" "Education" eduRequired edu with
  | some e => some e
  | none => validate_bullets_field edu "Education"

/-- The date range of an education block: `f"{start_year} - {end_year or 'Present'}"`. -/
def eduPeriod (edu : Rec) : String :=
  (recGet edu "start_year").fstr ++ " - " ++ orPresent (recGet edu "end_year")

/-- `EducationSection._education_block` (resume_sections.py:806-828). -/
def education_block (edu : Rec) : String :=
  let block :=
    "\n\\textbf\x7b" ++ (recGet edu "degree").fstr ++ " " ++ (recGet edu "subject").fstr
      ++ "\x7d \\hfill " ++ eduPeriod edu
      ++ "\\\\\n" ++ (recGet edu "school").fstr ++ " \\hfill \\textit\x7b"
      ++ (recGet edu "location").fstr ++ "\x7d\n\\vspace\x7b-0.5em\x7d"
  if (recGet edu "bullets").truthy then
    block ++ render_bullets (recGet edu "bullets").listOf
  else block

/-- `EducationSection.add_education` (resume_sections.py:830-876). -/
def add_education (educations : List Rec) (select : Value) (tex : String) :
    RenderResult :=
  match validateAll validate_education educations with
  | some e => (tex, some e)
  | none => add_section "EDUCATION" educations select education_block tex

/-!  Projects section (resume_sections.py:884-932).  Unlike experience and
education, `add_projects` does not go through `apply_selection` or
`add_section`: it reimplements selection inline with raw Python slicing and
indexing and always emits the section container itself. -/

/-- `ProjectsSection._validate_project` (resume_sections.py:892-903). -/
def validate_project (proj : Rec) : Option PyErr :=
  if !recHas proj "name" || !recHas proj "bullets" then
    some (.keyError "Project must include \x27name\x27 and \x27bullets\x27")
  else if !(recGet proj "name").isStr then
    some (.typeError "Project \x27name\x27 must be a string")
  else if !(recGet proj "bullets").isList || !(recGet proj "bullets").truthy then
    some (.typeError "Project \x27bullets\x27 must be a non-empty list of strings")
  else if !(recGet proj "bullets").listOf.all Value.isStr then
    some (.typeError "All project bullets must be strings")
  else
    match recFind proj "link" with
    | none => none
    | some .vnull => none
    | some l =>
        if !l.isStr then some (.typeError "Project \x27link\x27 must be a string or None")
        else none

/-- `entry["bullets"][0]` as rendered text (validation guarantees the list is
non-empty wherever this is called). -/
def firstBulletStr (r : Rec) : String :=
  match (recGet r "bullets").listOf with
  | b :: _ => b.fstr
  | [] => ""

/-- `ProjectsSection._project_block` (resume_sections.py:905-909): the
hyperlink fragment is appended only when `proj.get("link")` is truthy. -/
def project_block (proj : Rec) : String :=
  "\\item \\textbf\x7b" ++ (recGet proj "name").fstr ++ "\x7d "
    ++ (if (recGet proj "link").truthy then
          firstBulletStr proj ++ " \\href\x7b" ++ (recGet proj "link").fstr
            ++ "\x7d\x7b(See more here)\x7d"
        else firstBulletStr proj)

/-- The inline selection of `add_projects` / `add_certificates`
(resume_sections.py:919-926, 975-982): raw Python slicing and indexing,
without the bounds and sign checks of `apply_selection`. -/
def inlineSelection (items : List Rec) (select : Value) : Except PyErr (List Rec) :=
  match select with
  | .vnull => .ok items
  | .vint n => .ok (pySliceTo items n)
  | .vlist l => pyElems items l
  | _ => .error (.valueError "Invalid select argument")

/-- The string `add_projects` / `add_certificates` append: section command,
vspace and one itemize container, even when `selected` is empty. -/
def itemizedContainerStr (sectionName : String) (blocks : List String) : String :=
  "\n\\rSection\x7b" ++ sectionName ++ "\x7d\n\\vspace\x7b-0.3em\x7d\n\\begin\x7bitemize\x7d\n\\itemsep -6pt \x7b\x7d\n"
    ++ String.intercalate "\n" blocks
    ++ "\n\\end\x7bitemize\x7d\n"

/-- `ProjectsSection.add_projects` (resume_sections.py:911-932). -/
def add_projects (projects : List Rec) (select : Value) (tex : String) : RenderResult :=
  match validateAll validate_project projects with
  | some e => (tex, some e)
  | none =>
      match inlineSelection projects select with
      | .error e => (tex, some e)
      | .ok selected =>
          (tex ++ itemizedContainerStr "PROJECTS" (selected.map project_block), none)

/-!  Certificates section (resume_sections.py:940-988): a verbatim twin of the
projects section with its own names and messages. -/

/-- `CertificatesSection._validate_certificate` (resume_sections.py:948-959). -/
def validate_certificate (cert : Rec) : Option PyErr :=
  if !recHas cert "name" || !recHas cert "bullets" then
    some (.keyError "Certificate must include \x27name\x27 and \x27bullets\x27")
  else if !(recGet cert "name").isStr then
    some (.typeError "Certificate \x27name\x27 must be a string")
  else if !(recGet cert "bullets").isList || !(recGet cert "bullets").truthy then
    some (.typeError "Certificate \x27bullets\x27 must be a non-empty list of strings")
  else if !(recGet cert "bullets").listOf.all Value.isStr then
    some (.typeError "All certificate bullets must be strings")
  else
    match recFind cert "link" with
    | none => none
    | some .vnull => none
    | some l =>
        if !l.isStr then
          some (.typeError "Certificate \x27link\x27 must be a string or None")
        else none

/-- `CertificatesSection._certificate_block` (resume_sections.py:961-965). -/
def certificate_block (cert : Rec) : String :=
  "\\item \\textbf\x7b" ++ (recGet cert "name").fstr ++ "\x7d "
    ++ (if (recGet cert "link").truthy then
          firstBulletStr cert ++ " \\href\x7b" ++ (recGet cert "link").fstr
            ++ "\x7d\x7b(See more here)\x7d"
        else firstBulletStr cert)

/-- `CertificatesSection.add_certificates` (resume_sections.py:967-988). -/
def add_certificates (certificates : List Rec) (select : Value) (tex : String) :
    RenderResult :=
  match validateAll validate_certificate certificates with
  | some e => (tex, some e)
  | none =>
      match inlineSelection certificates select with
      | .error e => (tex, some e)
      | .ok selected =>
          (tex ++ itemizedContainerStr "CERTIFICATIONS" (selected.map certificate_block),
            none)

/-!  Interests section (resume_sections.py:996-1087).  Validation happens
inside the rendering loop, after the section heading has been emitted. -/

/-- The per-group checks of `InterestsSection.add_interests`
(resume_sections.py:1076-1082). -/
def interestGroupErr (g : Rec) : Option PyErr :=
  if !recHas g "items" then
    some (.keyError "Each interest entry must have an \x27items\x27 key")
  else if !(recGet g "items").isList || !(recGet g "items").listOf.all Value.isStr then
    some (.typeError "\x27items\x27 must be a list of strings")
  else none

/-- The text one interest group appends: `", ".join(group["items"]) + "\n\n"`. -/
def interestRender (g : Rec) : String :=
  String.intercalate ", " ((recGet g "items").listOf.map Value.fstr) ++ "\n\n"

/-- The `for group in interests` loop of `add_interests`: each group is
validated and immediately appended; the loop is followed by the raising
`end_section(section_type="rSection")` call. -/
def interestsLoop (groups : List Rec) (tex : String) : RenderResult :=
  match groups with
  | [] => (tex, some endSectionKwErr)
  | g :: gs =>
      match interestGroupErr g with
      | some e => (tex, some e)
      | none => interestsLoop gs (tex ++ interestRender g)

/-- `InterestsSection.add_interests` (resume_sections.py:1030-1087). -/
def add_interests (interests : List Rec) (tex : String) : RenderResult :=
  if interests.isEmpty then (tex, none)
  else interestsLoop interests (tex ++ begin_sectionStr "INTERESTS" "rSection")

/-!  Section data sources (data_loader/section_loader.py). -/

/-- `_require_mapping` (section_loader.py:11-14). -/
def require_mapping (v : Value) (ctx : String) : Option PyErr :=
  if !v.isMap then some (.typeError (ctx ++ " must be an object")) else none

/-- `_require_list` (section_loader.py:17-20). -/
def require_list (v : Value) (ctx : String) : Option PyErr :=
  if !v.isList then some (.typeError (ctx ++ " must be a list")) else none

/-- The per-entry loop shared by the list-section data sources: each entry
must be a mapping and satisfy the schema. -/
def loaderEntriesCheck (entryCtx : String) (schema : List (String × TySpec)) :
    List Value → Option PyErr
  | [] => none
  | v :: vs =>
      match require_mapping v entryCtx with
      | some e => some e
      | none =>
          match validate_required_fields entryCtx schema v.mapOf with
          | some e => some e
          | none => loaderEntriesCheck entryCtx schema vs

/-- `HeaderDataSource.REQUIRED_FIELDS` (section_loader.py:120-126). -/
def headerLoaderSchema : List (String × TySpec) :=
  [("first_name", .one .pstr), ("last_name", .one .pstr), ("email", .one .pstr),
   ("phone", .one .pstr), ("location", .one .pstr)]

/-- `EducationDataSource.REQUIRED_FIELDS` (section_loader.py:138-146): note
`end_year` must be an `int` here (no null variant) and `bullets` is required. -/
def eduLoaderSchema : List (String × TySpec) :=
  [("school", .one .pstr), ("degree", .one .pstr), ("subject", .one .pstr),
   ("start_year", .one .pint), ("end_year", .one .pint), ("location", .one .pstr),
   ("bullets", .one .plist)]

/-- `ExperienceDataSource.REQUIRED_FIELDS` (section_loader.py:162-169). -/
def expLoaderSchema : List (String × TySpec) :=
  [("company", .one .pstr), ("role", .one .pstr), ("start_date", .one .pstr),
   ("end_date", .pair .pstr .pnone), ("location", .one .pstr),
   ("bullets", .one .plist)]

/-- `ProjectsDataSource.REQUIRED_FIELDS` (section_loader.py:200-204): `link`
is a required `str` field at this layer. -/
def projLoaderSchema : List (String × TySpec) :=
  [("name", .one .pstr), ("bullets", .one .plist), ("link", .one .pstr)]

/-- `CertificatesDataSource.REQUIRED_FIELDS` (section_loader.py:220-224). -/
def certLoaderSchema : List (String × TySpec) :=
  [("name", .one .pstr), ("bullets", .one .plist), ("link", .one .pstr)]

/-- `SkillsDataSource.validate` per-entry checks (section_loader.py:185-192). -/
def skillsLoaderEntry (v : Value) : Option PyErr :=
  match require_mapping v "Skills entry" with
  | some e => some e
  | none =>
      let skill := v.mapOf
      if !recHas skill "category" || !(recGet skill "category").isStr then
        some (.keyError "Skills entry missing valid \x27category\x27")
      else if !recHas skill "items" || !(recGet skill "items").isList then
        some (.keyError "Skills entry missing valid \x27items\x27")
      else none

/-- `InterestsDataSource.validate` per-entry checks (section_loader.py:240-245). -/
def interestsLoaderEntry (v : Value) : Option PyErr :=
  match require_mapping v "Interest entry" with
  | some e => some e
  | none =>
      let interest := v.mapOf
      if !recHas interest "items" || !(recGet interest "items").isList then
        some (.keyError "Interest entry missing valid \x27items\x27")
      else none

/-- A per-entry loop for the two data sources without a field schema. -/
def loaderEachEntry (f : Value → Option PyErr) : List Value → Option PyErr
  | [] => none
  | v :: vs =>
      match f v with
      | some e => some e
      | none => loaderEachEntry f vs

/-- The `validate` method of each section's data source, dispatched by
section name as registered in `Resume.SECTION_CLASSES`. -/
def dsValidate (name : String) (sec : Value) : Option PyErr :=
  match name with
  | "header" =>
      match require_mapping sec "Header" with
      | some e => some e
      | none => validate_required_fields "Header" headerLoaderSchema sec.mapOf
  | "skills" =>
      match require_list sec "Skills" with
      | some e => some e
      | none => loaderEachEntry skillsLoaderEntry sec.listOf
  | "experience" =>
      match require_list sec "Professional experience" with
      | some e => some e
      | none => loaderEntriesCheck "Experience entry" expLoaderSchema sec.listOf
  | "education" =>
      match require_list sec "Education" with
      | some e => some e
      | none => loaderEntriesCheck "Education entry" eduLoaderSchema sec.listOf
  | "projects" =>
      match require_list sec "Projects" with
      | some e => some e
      | none => loaderEntriesCheck "Project entry" projLoaderSchema sec.listOf
  | "certificates" =>
      match require_list sec "Certificates" with
      | some e => some e
      | none => loaderEntriesCheck "Certificate entry" certLoaderSchema sec.listOf
  | "interests" =>
      match require_list sec "Interests" with
      | some e => some e
      | none => loaderEachEntry interestsLoaderEntry sec.listOf
  | _ => none

/-- The `section_key` of each registered data source. -/
def sectionKeyOf (name : String) : String :=
  if name = "experience" then "professional_experience" else name

/-- `SectionDataSource.data` (section_loader.py:74-93): every access fetches
the section from the root document and validates it; nothing is cached. -/
def dataSourceFetch (root : Rec) (name : String) : Except PyErr Value :=
  let key := sectionKeyOf name
  match recFind root key with
  | none => .error (.keyError ("Missing required section \x27" ++ key ++ "\x27"))
  | some sec =>
      match dsValidate name sec with
      | some e => .error e
      | none => .ok sec

/-!  Document assembly (latex/resume.py). -/

/-- The keys of `Resume.SECTION_CLASSES`, in declaration order. -/
def registryKeys : List String :=
  ["header", "skills", "experience", "education", "projects", "certificates",
   "interests"]

/-- The preamble `Resume.create_document_head` (resume.py:166-188) appends:
document class, geometry, the blfootnote command and the tab/itab commands. -/
def preambleStr : String :=
  "\\documentclass\x7bresume\x7d\n"
    ++ "\\usepackage[left=0.4in, top=0.4in, right=0.4in, bottom=0.4in]\x7bgeometry\x7d\n"
    ++ "\\newcommand\\blfootnote[1]\x7b%\n  \\begingroup\n  \\renewcommand\\thefootnote\x7b\x7d\\footnote\x7b#1\x7d%\n  \\addtocounter\x7bfootnote\x7d\x7b-1\x7d%\n  \\endgroup\n\x7d\n"
    ++ "\\newcommand\x7b\\tab\x7d[1]\x7b\\hspace\x7b0.2667\\textwidth\x7d\x7d\n"
    ++ "\\newcommand\x7b\\itab\x7d[1]\x7b\\hspace\x7b0em\x7d\x7d\n"

/-- Assembly state: the LaTeX buffer, the keys of the `_data_sources` cache in
insertion order (data-source objects constructed so far), and a log with one
entry per evaluation of a `SectionDataSource.data` property (each of which
fetches and validates). -/
structure AsmState where
  tex : String
  constructed : List String
  fetches : List String

/-- The assembly state right after `create_document_head`. -/
def asmInit : AsmState :=
  { tex := preambleStr, constructed := [], fetches := [] }

/-- Dispatch to the section's `add_*` method, as in
`Resume._render_section` (resume.py:239-264): collection sections receive the
`select` argument, the header unpacks its record as keyword arguments, skills
and interests take the plain list. -/
def renderDispatch (name : String) (data : Value) (select : Value) (tex : String) :
    RenderResult :=
  match name with
  | "header" => add_header data.mapOf tex
  | "skills" => add_skills (data.listOf.map Value.mapOf) tex
  | "experience" => add_experiences (data.listOf.map Value.mapOf) select tex
  | "education" => add_education (data.listOf.map Value.mapOf) select tex
  | "projects" => add_projects (data.listOf.map Value.mapOf) select tex
  | "certificates" => add_certificates (data.listOf.map Value.mapOf) select tex
  | "interests" => add_interests (data.listOf.map Value.mapOf) tex
  | _ => (tex, none)

/-- `Resume._render_section` (resume.py:193-264): the data-source object is
constructed only on first use (the `_data_sources` cache), but its `data`
property — a fresh fetch + validation — is evaluated on every call. -/
def renderSection (root : Rec) (name : String) (select : Value) (st : AsmState) :
    AsmState × Option PyErr :=
  let st1 :=
    if st.constructed.contains name then st
    else { st with constructed := st.constructed ++ [name] }
  let st2 := { st1 with fetches := st1.fetches ++ [name] }
  match dataSourceFetch root name with
  | .error e => (st2, some e)
  | .ok data =>
      ({ st2 with tex := (renderDispatch name data select st2.tex).1 },
        (renderDispatch name data select st2.tex).2)

/-- The selection parameters of `create_resume`, one per collection section
(`section_select_map`, resume.py:549-554). -/
structure SelArgs where
  selExp : Value := .vnull
  selEdu : Value := .vnull
  selProj : Value := .vnull
  selCert : Value := .vnull

/-- `section_select_map.get(name, None)`. -/
def selectFor (a : SelArgs) (name : String) : Value :=
  match name with
  | "experience" => a.selExp
  | "education" => a.selEdu
  | "projects" => a.selProj
  | "certificates" => a.selCert
  | _ => .vnull

/-- The body loop of `create_resume`: render each requested section in order,
aborting at the first exception. -/
def renderLoop (root : Rec) (args : SelArgs) (names : List String) (st : AsmState) :
    AsmState × Option PyErr :=
  match names with
  | [] => (st, none)
  | n :: rest =>
      match renderSection root n (selectFor args n) st with
      | (st1, some e) => (st1, some e)
      | (st1, none) => renderLoop root args rest st1

/-- `Resume.create_resume` (resume.py:432-572): preamble, request validation
(the message's interpolated Python set repr of the invalid names is elided),
header first when requested, body open, the remaining sections in the caller's
order, body close.  The `create_pdf` call hands the buffer to the external
compiler and is out of scope. -/
def create_resume (root : Rec) (args : SelArgs) (sections : Option (List String)) :
    AsmState × Option PyErr :=
  let secs := sections.getD registryKeys
  if secs.any (fun s => !registryKeys.contains s) then
    (asmInit, some (.valueError "Unknown section(s) requested"))
  else
    match
      (if secs.contains "header" then renderSection root "header" .vnull asmInit
       else (asmInit, none)) with
    | (st1, some e) => (st1, some e)
    | (st1, none) =>
        let st2 := { st1 with tex := st1.tex ++ "\\begin\x7bdocument\x7d\n" }
        match renderLoop root args (secs.filter (fun s => s ≠ "header")) st2 with
        | (st3, some e) => (st3, some e)
        | (st3, none) =>
            ({ st3 with tex := st3.tex ++ "\\end\x7bdocument\x7d\n" }, none)

/-!  Generic helpers and concrete sample data used by the theorems. -/

/-- Contiguous-sublist test on character lists. -/
def listInfix (pat : List Char) : List Char → Bool
  | [] => pat.isEmpty
  | c :: tl => List.isPrefixOf pat (c :: tl) || listInfix pat tl

/-- Substring test (used to state what an error message does or does not
name). -/
def containsSub (pat s : String) : Bool :=
  listInfix pat.toList s.toList

/-- Two sample projects: `Alpha` with a link, `Beta` without one.  Both pass
`ProjectsSection._validate_project` (the section-level validator treats
`link` as optional). -/
def sampleProjects : List Rec :=
  [[("name", .vstr "Alpha"), ("bullets", .vlist [.vstr "x"]),
    ("link", .vstr "http://a")],
   [("name", .vstr "Beta"), ("bullets", .vlist [.vstr "y"])]]

/-- A valid header record (the five required string fields). -/
def sampleHeader : Rec :=
  [("first_name", .vstr "Ada"), ("last_name", .vstr "L"),
   ("email", .vstr "a@x.io"), ("phone", .vstr "1"), ("location", .vstr "NY")]

/-- A root document with a valid header and an empty skills list: every
section render succeeds while appending nothing for skills. -/
def emptySkillsRoot : Rec :=
  [("header", .vmap sampleHeader), ("skills", .vlist [])]

/-- A root document whose projects source is the two entries of the spec
scenario: `P1` with a link, `P2` without one. -/
def projScenarioRoot : Rec :=
  [("projects",
    .vlist
      [.vmap [("name", .vstr "P1"), ("bullets", .vlist [.vstr "x"]),
              ("link", .vstr "http://a")],
       .vmap [("name", .vstr "P2"), ("bullets", .vlist [.vstr "y"])]])]

/-- The first entry of the projects scenario, as a record. -/
def projP1 : Rec :=
  [("name", .vstr "P1"), ("bullets", .vlist [.vstr "x"]), ("link", .vstr "http://a")]

/-- The second entry of the projects scenario, as a record. -/
def projP2 : Rec :=
  [("name", .vstr "P2"), ("bullets", .vlist [.vstr "y"])]

/-- A well-formed interests group. -/
def goodInterest : Rec := [("items", .vlist [.vstr "chess"])]

/-- An interests group whose `items` is not a list. -/
def badInterest : Rec := [("items", .vint 5)]

/-- A header record whose `first_name` has the wrong type (an int) while all
other fields are correct. -/
def intNameHeader : Rec :=
  [("first_name", .vint 5), ("last_name", .vstr "B"), ("email", .vstr "e"),
   ("phone", .vstr "p"), ("location", .vstr "l")]

/-- A valid experience entry whose `end_date` is the empty string. -/
def emptyEndExp : Rec :=
  [("role", .vstr "Eng"), ("company", .vstr "ACME"),
   ("start_date", .vstr "Jan 2020"), ("end_date", .vstr ""),
   ("location", .vstr "NY"), ("bullets", .vlist [.vstr "did x"])]

/-- A valid education entry whose `end_year` is 0. -/
def zeroEndEdu : Rec :=
  [("degree", .vstr "BSc"), ("subject", .vstr "Math"),
   ("school", .vstr "U"), ("start_year", .vint 2018), ("end_year", .vint 0),
   ("location", .vstr "NY")]

/-!  Theorems settling the claims. -/

/-- C10: any falsy end value triggers the ongoing marker: an experience
`end_date` that is the empty string (which passes validation, being a
string) renders `Present` exactly as a null one does, and an education
`end_year` of 0 renders `Present`. -/
theorem falsy_end_date_renders_present :
    (∀ v : Value, v.truthy = false → orPresent v = "Present") ∧
    (∀ r : Rec, recGet r "end_date" = .vstr "" →
      expPeriod r = (recGet r "start_date").fstr ++ " - " ++ "Present") ∧
    (∀ r : Rec, recGet r "end_date" = .vnull →
      expPeriod r = (recGet r "start_date").fstr ++ " - " ++ "Present") ∧
    (∀ r : Rec, recGet r "end_year" = .vint 0 →
      eduPeriod r = (recGet r "start_year").fstr ++ " - " ++ "Present") ∧
    validate_experience emptyEndExp = none ∧
    validate_education zeroEndEdu = none := by
  refine ⟨?_, ?_, ?_, ?_, rfl, rfl⟩
  · intro v h
    simp [orPresent, h]
  · intro r h
    unfold expPeriod
    rw [h]
    rfl
  · intro r h
    unfold expPeriod
    rw [h]
    rfl
  · intro r h
    unfold eduPeriod
    rw [h]
    rfl

/-- C10 witness: the concrete empty-string-end experience entry and the
zero-end education entry render `Present`. -/
theorem falsy_end_date_renders_present_witness :
    expPeriod emptyEndExp = (recGet emptyEndExp "start_date").fstr ++ " - " ++ "Present"
      ∧ eduPeriod zeroEndEdu = (recGet zeroEndEdu "start_year").fstr ++ " - " ++ "Present" :=
  ⟨falsy_end_date_renders_present.2.1 emptyEndExp rfl,
   falsy_end_date_renders_present.2.2.2.1 zeroEndEdu rfl⟩

/-- C4 (amended): requesting an unknown section name fails the whole assembly
with a `ValueError` before any header or section fragment is rendered and
before any data source is constructed or fetched — but the document preamble
is already in the buffer when the error is raised, because
`create_document_head` runs before the request is validated. -/
theorem unknown_section_fails_before_rendering :
    ∀ (root : Rec) (args : SelArgs) (secs : List String),
      secs.any (fun s => !registryKeys.contains s) = true →
      create_resume root args (some secs)
        = (asmInit, some (.valueError "Unknown section(s) requested")) := by
  intro root args secs h
  unfold create_resume
  simp only [Option.getD_some]
  rw [if_pos h]

/-- C4 counterexample: with an unknown requested name the error is raised
while the buffer already holds the preamble, so the buffer is not empty as
the claim states. -/
theorem unknown_section_buffer_not_empty :
    (create_resume [] {} (some ["bogus"])).2
        = some (.valueError "Unknown section(s) requested")
      ∧ (create_resume [] {} (some ["bogus"])).1.tex ≠ "" :=
  ⟨rfl, by decide⟩

/-- C4 witness: a concrete run with an unknown name anywhere in the order. -/
theorem unknown_section_fails_before_rendering_witness :
    create_resume [] {} (some ["header", "bogus"])
      = (asmInit, some (.valueError "Unknown section(s) requested")) :=
  unknown_section_fails_before_rendering [] {} ["header", "bogus"] rfl

/-- C2 (amended): for experience and education (`ListSection.add_section`)
an empty post-selection subset appends nothing at all; projects and
certificates, which bypass `add_section`, append the section heading and an
empty itemize container even when the subset is empty. -/
theorem empty_subset_rendering :
    (∀ (name : String) (items : List Rec) (select : Value) (block : Rec → String)
        (tex : String),
        apply_selection items select name = .ok ([] : List Rec) →
        add_section name items select block tex = (tex, none)) ∧
    (∀ (projects : List Rec) (select : Value) (tex : String),
        validateAll validate_project projects = none →
        inlineSelection projects select = .ok ([] : List Rec) →
        add_projects projects select tex
          = (tex ++ itemizedContainerStr "PROJECTS" [], none)) ∧
    (∀ (certificates : List Rec) (select : Value) (tex : String),
        validateAll validate_certificate certificates = none →
        inlineSelection certificates select = .ok ([] : List Rec) →
        add_certificates certificates select tex
          = (tex ++ itemizedContainerStr "CERTIFICATIONS" [], none)) := by
  refine ⟨?_, ?_, ?_⟩
  · intro name items select block tex h
    unfold add_section
    rw [h]
    rfl
  · intro ps select tex hv hs
    unfold add_projects
    rw [hv, hs]
    rfl
  · intro cs select tex hv hs
    unfold add_certificates
    rw [hv, hs]
    rfl

/-- C2 counterexample: certificates with an empty source list and selection
unset still emit the `CERTIFICATIONS` heading and an empty itemize
container. -/
theorem empty_certificates_emit_container :
    add_certificates [] .vnull "" = (itemizedContainerStr "CERTIFICATIONS" [], none)
      ∧ itemizedContainerStr "CERTIFICATIONS" [] ≠ "" :=
  ⟨rfl, by decide⟩

/-- C2 witness: an `add_section`-based section with selection count 0 appends
nothing. -/
theorem empty_subset_rendering_witness :
    add_section "EDUCATION" sampleProjects (.vint 0) education_block "B" = ("B", none) :=
  empty_subset_rendering.1 "EDUCATION" sampleProjects (.vint 0) education_block "B" rfl

/-- C5 (amended): `apply_selection` (experience, education) rejects a
negative count with `ValueError` and otherwise returns the prefix
`items[0:min(N, len)]`; projects and certificates use a raw Python slice
instead, so any integer count — negative included — succeeds silently with
Python slice semantics (a negative N drops the last `|N|` items). -/
theorem count_selection_behavior :
    (∀ (items : List Rec) (n : Int) (name : String), n < 0 →
        apply_selection items (.vint n) name
          = .error (.valueError
              (name ++ " selection count must be non-negative, got " ++ toString n))) ∧
    (∀ (items : List Rec) (n : Int) (name : String), 0 ≤ n →
        apply_selection items (.vint n) name = .ok (items.take n.toNat)) ∧
    (∀ (projects : List Rec) (n : Int) (tex : String),
        validateAll validate_project projects = none →
        add_projects projects (.vint n) tex
          = (tex ++ itemizedContainerStr "PROJECTS"
              ((pySliceTo projects n).map project_block), none)) ∧
    (∀ (certificates : List Rec) (n : Int) (tex : String),
        validateAll validate_certificate certificates = none →
        add_certificates certificates (.vint n) tex
          = (tex ++ itemizedContainerStr "CERTIFICATIONS"
              ((pySliceTo certificates n).map certificate_block), none)) := by
  refine ⟨?_, ?_, ?_, ?_⟩
  · intro items n name h
    simp only [apply_selection]
    rw [if_pos h]
  · intro items n name h
    simp only [apply_selection, pySliceTo]
    rw [if_neg (not_lt.mpr h), if_pos h]
  · intro ps n tex hv
    unfold add_projects inlineSelection
    rw [hv]
  · intro cs n tex hv
    unfold add_certificates inlineSelection
    rw [hv]

/-- C5 counterexample: a negative count on the projects section is not
rejected; `select = -1` silently renders all but the last project (here: the
first of the two sample projects) with no error. -/
theorem projects_negative_count_not_rejected :
    add_projects sampleProjects (.vint (-1)) ""
      = ("\n\\rSection\x7bPROJECTS\x7d\n\\vspace\x7b-0.3em\x7d\n\\begin\x7bitemize\x7d\n\\itemsep -6pt \x7b\x7d\n\\item \\textbf\x7bAlpha\x7d x \\href\x7bhttp://a\x7d\x7b(See more here)\x7d\n\\end\x7bitemize\x7d\n",
          none) := by
  rfl

/-- C5 witness: the count behavior at concrete inputs. -/
theorem count_selection_behavior_witness :
    apply_selection sampleProjects (.vint (-2)) "Project"
        = .error (.valueError
            ("Project" ++ " selection count must be non-negative, got "
              ++ toString (-2 : Int)))
      ∧ apply_selection sampleProjects (.vint 5) "Project"
        = .ok (sampleProjects.take (5 : Int).toNat) :=
  ⟨count_selection_behavior.1 sampleProjects (-2) "Project" (by norm_num),
   count_selection_behavior.2.1 sampleProjects 5 "Project" (by norm_num)⟩

/-- Appending one more joined string (helper for the interests loop). -/
theorem join_cons (s : String) (l : List String) :
    String.join (s :: l) = s ++ String.join l := by
  apply String.ext
  simp [String.data_join]

/-- The interests loop renders the valid prefix and stops, buffer kept, at
the first invalid group. -/
theorem interestsLoop_prefix :
    ∀ (pre : List Rec) (g : Rec) (gs : List Rec) (tex : String) (e : PyErr),
      (∀ p ∈ pre, interestGroupErr p = none) →
      interestGroupErr g = some e →
      interestsLoop (pre ++ g :: gs) tex
        = (tex ++ String.join (pre.map interestRender), some e) := by
  intro pre
  induction pre with
  | nil =>
      intro g gs tex e _ hg
      simp only [List.nil_append, interestsLoop, hg, List.map_nil]
      rw [show String.join ([] : List String) = "" from rfl, String.append_empty]
  | cons p pre ih =>
      intro g gs tex e hpre hg
      have hp : interestGroupErr p = none := hpre p (List.mem_cons_self p pre)
      simp only [List.cons_append, interestsLoop, hp]
      show interestsLoop (pre ++ g :: gs) (tex ++ interestRender p) = _
      rw [ih g gs _ e (fun q hq => hpre q (List.mem_cons_of_mem p hq)) hg]
      rw [List.map_cons, join_cons, String.append_assoc]

/-- C3 (amended): experience, education, skills, projects and certificates
validate the whole list before emitting anything, so any validation failure
leaves the buffer exactly as it was; the interests section instead validates
each group inside the rendering loop, so a failure at group k leaves the
section heading and the renderings of groups 0..k-1 in the buffer. -/
theorem validation_failure_atomicity :
    (∀ (exps : List Rec) (select : Value) (tex : String) (e : PyErr),
        validateAll validate_experience exps = some e →
        add_experiences exps select tex = (tex, some e)) ∧
    (∀ (edus : List Rec) (select : Value) (tex : String) (e : PyErr),
        validateAll validate_education edus = some e →
        add_education edus select tex = (tex, some e)) ∧
    (∀ (skills : List Rec) (tex : String) (e : PyErr),
        validateAll validate_skill skills = some e →
        add_skills skills tex = (tex, some e)) ∧
    (∀ (ps : List Rec) (select : Value) (tex : String) (e : PyErr),
        validateAll validate_project ps = some e →
        add_projects ps select tex = (tex, some e)) ∧
    (∀ (cs : List Rec) (select : Value) (tex : String) (e : PyErr),
        validateAll validate_certificate cs = some e →
        add_certificates cs select tex = (tex, some e)) ∧
    (∀ (pre : List Rec) (g : Rec) (gs : List Rec) (tex : String) (e : PyErr),
        (∀ p ∈ pre, interestGroupErr p = none) →
        interestGroupErr g = some e →
        add_interests (pre ++ g :: gs) tex
          = (tex ++ begin_sectionStr "INTERESTS" "rSection"
              ++ String.join (pre.map interestRender), some e)) := by
  refine ⟨?_, ?_, ?_, ?_, ?_, ?_⟩
  · intro exps select tex e h
    unfold add_experiences
    rw [h]
  · intro edus select tex e h
    unfold add_education
    rw [h]
  · intro skills tex e h
    cases skills with
    | nil => simp [validateAll] at h
    | cons s ss =>
        unfold add_skills
        rw [if_neg (by simp), h]
  · intro ps select tex e h
    unfold add_projects
    rw [h]
  · intro cs select tex e h
    unfold add_certificates
    rw [h]
  · intro pre g gs tex e hpre hg
    unfold add_interests
    rw [if_neg (by simp)]
    exact interestsLoop_prefix pre g gs _ e hpre hg

/-- C3 counterexample: a failing interests group after a valid one raises
the validation error but leaves the section heading and the first group in
the buffer, which is therefore not restored. -/
theorem interests_partial_section_on_failure :
    (add_interests [goodInterest, badInterest] "BUF").2
        = some (.typeError "\x27items\x27 must be a list of strings")
      ∧ (add_interests [goodInterest, badInterest] "BUF").1 ≠ "BUF" :=
  ⟨rfl, by decide⟩

/-- C3 witness: a wrongly-typed experience entry aborts with the buffer
untouched; a failing interests group keeps the heading and valid prefix. -/
theorem validation_failure_atomicity_witness :
    add_experiences [[("role", .vint 1)]] .vnull "T"
        = ("T", some (.typeError
            "Experience field \x27role\x27 must be of type <class \x27str\x27>, got int"))
      ∧ add_interests ([goodInterest] ++ badInterest :: []) "B"
        = ("B" ++ begin_sectionStr "INTERESTS" "rSection"
            ++ String.join ([goodInterest].map interestRender),
           some (.typeError "\x27items\x27 must be a list of strings")) :=
  ⟨validation_failure_atomicity.1 [[("role", .vint 1)]] .vnull "T" _ rfl,
   validation_failure_atomicity.2.2.2.2.2 [goodInterest] badInterest [] "B" _
     (by decide) rfl⟩

/-- C1 (amended): `apply_selection` (experience, education) behaves exactly
as claimed: an explicit index list with every index in `[0, len)` yields
`[items[i] for i in idxs]` in the given order with duplicates, and any index
outside that range fails with `IndexError`.  Projects and certificates index
the raw Python list instead: an index `≥ len` (or `< -len`) raises
`IndexError` from the indexing itself, but an index in `[-len, 0)` silently
selects `items[len + i]` rather than failing. -/
theorem index_list_selection :
    (∀ (items : List Rec) (sel : List Int) (name : String),
        (∀ i ∈ sel, 0 ≤ i ∧ i < (items.length : Int)) →
        apply_selection items (.vlist (sel.map Value.vint)) name
          = .ok (sel.map (fun i => items.getD i.toNat default))) ∧
    (∀ (items : List Rec) (sel : List Int) (name : String),
        (∃ i ∈ sel, i < 0 ∨ (items.length : Int) ≤ i) →
        ∃ msg, apply_selection items (.vlist (sel.map Value.vint)) name
          = .error (.indexError msg)) ∧
    (∀ (items : List Rec) (i : Int), (items.length : Int) ≤ i →
        pyIndex items (.vint i) = .error (.indexError "list index out of range")) ∧
    (∀ (items : List Rec) (i : Int), -(items.length : Int) ≤ i → i < 0 →
        pyIndex items (.vint i)
          = .ok (items.getD ((items.length : Int) + i).toNat default)) := by
  refine ⟨?_, ?_, ?_, ?_⟩
  · intro items sel name h
    simp only [apply_selection]
    rw [if_pos (by
      rw [List.all_eq_true]
      intro v hv
      obtain ⟨i, _, rfl⟩ := List.mem_map.mp hv
      rfl)]
    rw [if_neg (by
      rw [Bool.not_eq_true, List.any_eq_false]
      intro v hv
      obtain ⟨i, hi, rfl⟩ := List.mem_map.mp hv
      have hhi := h i hi
      simp only [Value.intOf, Bool.or_eq_true, decide_eq_true_iff, not_or]
      omega)]
    rw [List.map_map]
    rfl
  · intro items sel name h
    obtain ⟨i, hi, hbad⟩ := h
    simp only [apply_selection]
    rw [if_pos (by
      rw [List.all_eq_true]
      intro v hv
      obtain ⟨j, _, rfl⟩ := List.mem_map.mp hv
      rfl)]
    rw [if_pos (by
      rw [List.any_eq_true]
      refine ⟨.vint i, List.mem_map_of_mem Value.vint hi, ?_⟩
      simp only [Value.intOf, Bool.or_eq_true, decide_eq_true_iff]
      omega)]
    exact ⟨_, rfl⟩
  · intro items i h
    have h0 : (0 : Int) ≤ (items.length : Int) := Int.ofNat_nonneg _
    simp only [pyIndex, pyWrap]
    simp only [if_neg (show ¬ i < 0 by omega)]
    rw [if_neg (show ¬ ((0 : Int) ≤ i ∧ i < (items.length : Int)) by omega)]
  · intro items i hlow hneg
    simp only [pyIndex, pyWrap]
    simp only [if_pos hneg]
    rw [if_pos ⟨by omega, by omega⟩]

/-- C1 counterexample: the projects section accepts the negative index `-1`:
no index error is raised and the last project is silently rendered. -/
theorem projects_negative_index_not_rejected :
    (add_projects sampleProjects (.vlist [.vint (-1)]) "").2 = none
      ∧ (add_projects sampleProjects (.vlist [.vint (-1)]) "").1
        = "\n\\rSection\x7bPROJECTS\x7d\n\\vspace\x7b-0.3em\x7d\n\\begin\x7bitemize\x7d\n\\itemsep -6pt \x7b\x7d\n\\item \\textbf\x7bBeta\x7d y\n\\end\x7bitemize\x7d\n" :=
  ⟨rfl, rfl⟩

/-- C1 witness: the selection behaviors at concrete inputs, duplicates
included. -/
theorem index_list_selection_witness :
    apply_selection sampleProjects (.vlist ([1, 0, 0].map Value.vint)) "X"
        = .ok ([1, 0, 0].map (fun i : Int => sampleProjects.getD i.toNat default))
      ∧ (∃ msg, apply_selection sampleProjects (.vlist ([5].map Value.vint)) "X"
          = .error (.indexError msg))
      ∧ pyIndex sampleProjects (.vint 7)
        = .error (.indexError "list index out of range")
      ∧ pyIndex sampleProjects (.vint (-1))
        = .ok (sampleProjects.getD ((sampleProjects.length : Int) + (-1)).toNat default) :=
  ⟨index_list_selection.1 sampleProjects [1, 0, 0] "X" (by decide),
   index_list_selection.2.1 sampleProjects [5] "X" ⟨5, by decide, by decide⟩,
   index_list_selection.2.2.1 sampleProjects 7 (by decide),
   index_list_selection.2.2.2 sampleProjects (-1) (by decide) (by decide)⟩

/-!  Characterizations of the field validators. -/

/-- `_validate_required_fields` reports the first schema field that is
missing, independently of everything after it. -/
theorem vrf_missing_first :
    ∀ (ctx : String) (pre : List (String × TySpec)) (k : String) (t : TySpec)
      (post : List (String × TySpec)) (r : Rec),
      (∀ p ∈ pre, ∃ v, recFind r p.1 = some v ∧ v.isInstSpec p.2 = true) →
      recFind r k = none →
      validate_required_fields ctx (pre ++ (k, t) :: post) r
        = some (.keyError (ctx ++ " missing required field \x27" ++ k ++ "\x27")) := by
  intro ctx pre
  induction pre with
  | nil =>
      intro k t post r _ hk
      simp only [List.nil_append, validate_required_fields, hk]
  | cons p ps ih =>
      intro k t post r hpre hk
      obtain ⟨f, ty⟩ := p
      obtain ⟨w, hw, hwt⟩ := hpre (f, ty) (List.mem_cons_self _ _)
      simp only [List.cons_append, validate_required_fields, hw, hwt,
        Bool.not_true, Bool.false_eq_true, if_false]
      exact ih k t post r (fun q hq => hpre q (List.mem_cons_of_mem _ hq)) hk

/-- `_validate_required_fields` reports the first schema field whose value
has the wrong type; the message omits the actual type. -/
theorem vrf_wrongtype_first :
    ∀ (ctx : String) (pre : List (String × TySpec)) (k : String) (t : TySpec)
      (post : List (String × TySpec)) (r : Rec) (v : Value),
      (∀ p ∈ pre, ∃ w, recFind r p.1 = some w ∧ w.isInstSpec p.2 = true) →
      recFind r k = some v →
      v.isInstSpec t = false →
      validate_required_fields ctx (pre ++ (k, t) :: post) r
        = some (.typeError
            (ctx ++ " field \x27" ++ k ++ "\x27 must be of type " ++ t.pyRepr)) := by
  intro ctx pre
  induction pre with
  | nil =>
      intro k t post r v _ hk hv
      simp only [List.nil_append, validate_required_fields, hk, hv,
        Bool.not_false, if_true]
  | cons p ps ih =>
      intro k t post r v hpre hk hv
      obtain ⟨f, ty⟩ := p
      obtain ⟨w, hw, hwt⟩ := hpre (f, ty) (List.mem_cons_self _ _)
      simp only [List.cons_append, validate_required_fields, hw, hwt,
        Bool.not_true, Bool.false_eq_true, if_false]
      exact ih k t post r v (fun q hq => hpre q (List.mem_cons_of_mem _ hq)) hk hv

/-- The section-level field loop reports the first missing schema field. -/
theorem sfc_missing_first :
    ∀ (mctx tctx : String) (pre : List (String × TySpec)) (k : String) (t : TySpec)
      (post : List (String × TySpec)) (r : Rec),
      (∀ p ∈ pre, ∃ v, recFind r p.1 = some v ∧ v.isInstSpec p.2 = true) →
      recFind r k = none →
      sectionFieldCheck mctx tctx (pre ++ (k, t) :: post) r
        = some (.keyError (mctx ++ " missing required field \x27" ++ k ++ "\x27")) := by
  intro mctx tctx pre
  induction pre with
  | nil =>
      intro k t post r _ hk
      simp only [List.nil_append, sectionFieldCheck, hk]
  | cons p ps ih =>
      intro k t post r hpre hk
      obtain ⟨f, ty⟩ := p
      obtain ⟨w, hw, hwt⟩ := hpre (f, ty) (List.mem_cons_self _ _)
      simp only [List.cons_append, sectionFieldCheck, hw, hwt,
        Bool.not_true, Bool.false_eq_true, if_false]
      exact ih k t post r (fun q hq => hpre q (List.mem_cons_of_mem _ hq)) hk

/-- The section-level field loop reports the first wrongly-typed schema
field, naming the field, the expected type and the actual type. -/
theorem sfc_wrongtype_first :
    ∀ (mctx tctx : String) (pre : List (String × TySpec)) (k : String) (t : TySpec)
      (post : List (String × TySpec)) (r : Rec) (v : Value),
      (∀ p ∈ pre, ∃ w, recFind r p.1 = some w ∧ w.isInstSpec p.2 = true) →
      recFind r k = some v →
      v.isInstSpec t = false →
      sectionFieldCheck mctx tctx (pre ++ (k, t) :: post) r
        = some (.typeError
            (tctx ++ " field \x27" ++ k ++ "\x27 must be of type " ++ t.pyRepr
              ++ ", got " ++ v.typeName)) := by
  intro mctx tctx pre
  induction pre with
  | nil =>
      intro k t post r v _ hk hv
      simp only [List.nil_append, sectionFieldCheck, hk, hv,
        Bool.not_false, if_true]
  | cons p ps ih =>
      intro k t post r v hpre hk hv
      obtain ⟨f, ty⟩ := p
      obtain ⟨w, hw, hwt⟩ := hpre (f, ty) (List.mem_cons_self _ _)
      simp only [List.cons_append, sectionFieldCheck, hw, hwt,
        Bool.not_true, Bool.false_eq_true, if_false]
      exact ih k t post r v (fun q hq => hpre q (List.mem_cons_of_mem _ hq)) hk hv

/-- A schema validation succeeds exactly when every schema field is present
with an accepted type. -/
theorem vrf_none_iff :
    ∀ (ctx : String) (schema : List (String × TySpec)) (r : Rec),
      validate_required_fields ctx schema r = none
        ↔ ∀ p ∈ schema, ∃ v, recFind r p.1 = some v ∧ v.isInstSpec p.2 = true := by
  intro ctx schema r
  induction schema with
  | nil => simp [validate_required_fields]
  | cons p ps ih =>
      obtain ⟨f, ty⟩ := p
      cases hf : recFind r f with
      | none =>
          simp only [validate_required_fields, hf]
          constructor
          · intro h
            exact absurd h (by simp)
          · intro hall
            obtain ⟨v, hv, _⟩ := hall (f, ty) (List.mem_cons_self _ _)
            rw [hf] at hv
            exact absurd hv (by simp)
      | some v =>
          cases hv : v.isInstSpec ty with
          | false =>
              simp only [validate_required_fields, hf, hv, Bool.not_false, if_true]
              constructor
              · intro h
                exact absurd h (by simp)
              · intro hall
                obtain ⟨w, hw, hwt⟩ := hall (f, ty) (List.mem_cons_self _ _)
                rw [hf] at hw
                cases hw
                rw [hv] at hwt
                exact absurd hwt (by simp)
          | true =>
              simp only [validate_required_fields, hf, hv, Bool.not_true,
                Bool.false_eq_true, if_false]
              rw [ih, List.forall_mem_cons]
              constructor
              · intro h
                exact ⟨⟨v, hf, hv⟩, h⟩
              · intro h
                exact h.2

/-- C9 (amended): both validators check fields in schema-declaration order
and deterministically report the first violation, naming the missing field,
or the wrongly-typed field and its expected type, independently of the
record's other fields; the section-level validators also name the actual
type, but the loader-level `_validate_required_fields` omits the actual type
from its message. -/
theorem first_violation_schema_order :
    (∀ (ctx : String) (pre : List (String × TySpec)) (k : String) (t : TySpec)
        (post : List (String × TySpec)) (r : Rec),
        (∀ p ∈ pre, ∃ v, recFind r p.1 = some v ∧ v.isInstSpec p.2 = true) →
        recFind r k = none →
        validate_required_fields ctx (pre ++ (k, t) :: post) r
          = some (.keyError (ctx ++ " missing required field \x27" ++ k ++ "\x27"))) ∧
    (∀ (ctx : String) (pre : List (String × TySpec)) (k : String) (t : TySpec)
        (post : List (String × TySpec)) (r : Rec) (v : Value),
        (∀ p ∈ pre, ∃ w, recFind r p.1 = some w ∧ w.isInstSpec p.2 = true) →
        recFind r k = some v →
        v.isInstSpec t = false →
        validate_required_fields ctx (pre ++ (k, t) :: post) r
          = some (.typeError
              (ctx ++ " field \x27" ++ k ++ "\x27 must be of type " ++ t.pyRepr))) ∧
    (∀ (mctx tctx : String) (pre : List (String × TySpec)) (k : String) (t : TySpec)
        (post : List (String × TySpec)) (r : Rec),
        (∀ p ∈ pre, ∃ v, recFind r p.1 = some v ∧ v.isInstSpec p.2 = true) →
        recFind r k = none →
        sectionFieldCheck mctx tctx (pre ++ (k, t) :: post) r
          = some (.keyError (mctx ++ " missing required field \x27" ++ k ++ "\x27"))) ∧
    (∀ (mctx tctx : String) (pre : List (String × TySpec)) (k : String) (t : TySpec)
        (post : List (String × TySpec)) (r : Rec) (v : Value),
        (∀ p ∈ pre, ∃ w, recFind r p.1 = some w ∧ w.isInstSpec p.2 = true) →
        recFind r k = some v →
        v.isInstSpec t = false →
        sectionFieldCheck mctx tctx (pre ++ (k, t) :: post) r
          = some (.typeError
              (tctx ++ " field \x27" ++ k ++ "\x27 must be of type " ++ t.pyRepr
                ++ ", got " ++ v.typeName))) :=
  ⟨vrf_missing_first, vrf_wrongtype_first, sfc_missing_first, sfc_wrongtype_first⟩

/-- C9 counterexample: the loader-level type error for a header whose
`first_name` is an int names the field and the expected type but does not
name the actual type (`int` appears nowhere in the message), contradicting
the claim that the type error names the actual type. -/
theorem loader_type_error_omits_actual_type :
    validate_required_fields "Header" headerLoaderSchema intNameHeader
        = some (.typeError
            "Header field \x27first_name\x27 must be of type <class \x27str\x27>")
      ∧ containsSub "int"
          "Header field \x27first_name\x27 must be of type <class \x27str\x27>" = false :=
  ⟨rfl, by decide⟩

/-- C9 witness: the first-violation behavior at concrete records. -/
theorem first_violation_schema_order_witness :
    validate_required_fields "Header"
        ([("first_name", .one .pstr)] ++ ("last_name", .one .pstr) :: [])
        [("first_name", .vstr "A"), ("phone", .vint 7)]
      = some (.keyError ("Header" ++ " missing required field \x27" ++ "last_name" ++ "\x27"))
      ∧ sectionFieldCheck "Experience entry" "Experience"
          ([] ++ ("role", .one .pstr) :: []) [("role", .vint 3)]
        = some (.typeError
            ("Experience" ++ " field \x27" ++ "role" ++ "\x27 must be of type "
              ++ (TySpec.one .pstr).pyRepr ++ ", got " ++ (Value.vint 3).typeName)) :=
  ⟨first_violation_schema_order.1 "Header" [("first_name", .one .pstr)] "last_name"
      (.one .pstr) [] [("first_name", .vstr "A"), ("phone", .vint 7)]
      (by
        intro p hp
        rw [List.mem_singleton] at hp
        subst hp
        exact ⟨.vstr "A", rfl, rfl⟩)
      rfl,
   first_violation_schema_order.2.2.2 "Experience entry" "Experience" [] "role"
      (.one .pstr) [] [("role", .vint 3)] (.vint 3)
      (by intro p hp; exact absurd hp (List.not_mem_nil p))
      rfl rfl⟩

/-!  C8: the projects link scenario. -/

/-- C8 counterexample: assembling the spec's projects source (`P2` has no
`link`) fails at the projects data source with a missing-field error — the
assembly does not succeed, and nothing beyond the preamble and body-open
marker is in the buffer. -/
theorem assembly_rejects_absent_project_link :
    (create_resume projScenarioRoot { selProj := .vlist [.vint 1] } (some ["projects"])).2
        = some (.keyError "Project entry missing required field \x27link\x27")
      ∧ (create_resume projScenarioRoot { selProj := .vlist [.vint 1] }
            (some ["projects"])).1.tex
        = preambleStr ++ "\\begin\x7bdocument\x7d\n" :=
  ⟨rfl, rfl⟩

/-- C8 (amended): at the section level the scenario behaves as claimed —
`add_projects` with that data and selection `[1]` emits exactly `P2`'s block
with no hyperlink fragment and no `P1` text, and `_project_block` omits the
hyperlink for a null or absent link; but the assembly-level
`ProjectsDataSource` requires `link` to be present (a string), so the
document-level scenario fails validation instead of succeeding. -/
theorem project_link_optional_only_in_section :
    (∀ r : Rec, recFind r "link" = none →
        project_block r
          = "\\item \\textbf\x7b" ++ (recGet r "name").fstr ++ "\x7d "
            ++ firstBulletStr r) ∧
    (∀ r : Rec, recFind r "link" = some .vnull →
        project_block r
          = "\\item \\textbf\x7b" ++ (recGet r "name").fstr ++ "\x7d "
            ++ firstBulletStr r) ∧
    (∀ m : Rec, validate_required_fields "Project entry" projLoaderSchema m = none →
        recHas m "link" = true) ∧
    add_projects [projP1, projP2] (.vlist [.vint 1]) ""
      = (itemizedContainerStr "PROJECTS" [project_block projP2], none) ∧
    project_block projP2 = "\\item \\textbf\x7bP2\x7d y" := by
  refine ⟨?_, ?_, ?_, rfl, rfl⟩
  · intro r h
    unfold project_block
    rw [show recGet r "link" = Value.vnull by rw [recGet, h]; rfl]
    rfl
  · intro r h
    unfold project_block
    rw [show recGet r "link" = Value.vnull by rw [recGet, h]; rfl]
    rfl
  · intro m h
    obtain ⟨v, hv, _⟩ :=
      (vrf_none_iff "Project entry" projLoaderSchema m).mp h ("link", .one .pstr)
        (by simp [projLoaderSchema])
    rw [recHas, hv]
    rfl

/-- C8 witness: the hyperlink-omission equation at the concrete `P2` record
and the link-requirement of the loader at the concrete `P1` record. -/
theorem project_link_optional_only_in_section_witness :
    project_block projP2
        = "\\item \\textbf\x7b" ++ (recGet projP2 "name").fstr ++ "\x7d "
          ++ firstBulletStr projP2
      ∧ recHas projP1 "link" = true :=
  ⟨project_link_optional_only_in_section.1 projP2 rfl,
   project_link_optional_only_in_section.2.2.1 projP1 rfl⟩

/-!  Every rendering step only appends to the buffer. -/

theorem interestsLoop_extends :
    ∀ (groups : List Rec) (tex : String), ∃ r, (interestsLoop groups tex).1 = tex ++ r := by
  intro groups
  induction groups with
  | nil =>
      intro tex
      exact ⟨"", (String.append_empty tex).symm⟩
  | cons g gs ih =>
      intro tex
      cases hg : interestGroupErr g with
      | some e =>
          simp only [interestsLoop, hg]
          exact ⟨"", (String.append_empty tex).symm⟩
      | none =>
          simp only [interestsLoop, hg]
          obtain ⟨r, hr⟩ := ih (tex ++ interestRender g)
          exact ⟨interestRender g ++ r, by rw [hr, String.append_assoc]⟩

theorem add_header_extends (data : Rec) (tex : String) :
    ∃ r, (add_header data tex).1 = tex ++ r := by
  unfold add_header
  split
  · exact ⟨"", (String.append_empty tex).symm⟩
  split
  · exact ⟨"", (String.append_empty tex).symm⟩
  · exact ⟨headerBlockStr data, rfl⟩

theorem add_skills_extends (skills : List Rec) (tex : String) :
    ∃ r, (add_skills skills tex).1 = tex ++ r := by
  unfold add_skills
  split
  · exact ⟨"", (String.append_empty tex).symm⟩
  split
  · exact ⟨"", (String.append_empty tex).symm⟩
  · exact ⟨_, (String.append_assoc tex _ _)⟩

theorem add_section_extends (name : String) (items : List Rec) (select : Value)
    (block : Rec → String) (tex : String) :
    ∃ r, (add_section name items select block tex).1 = tex ++ r := by
  unfold add_section
  split
  · exact ⟨"", (String.append_empty tex).symm⟩
  split
  · exact ⟨"", (String.append_empty tex).symm⟩
  · exact ⟨_, (String.append_assoc tex _ _)⟩

theorem add_experiences_extends (exps : List Rec) (select : Value) (tex : String) :
    ∃ r, (add_experiences exps select tex).1 = tex ++ r := by
  unfold add_experiences
  split
  · exact ⟨"", (String.append_empty tex).symm⟩
  · exact add_section_extends _ _ _ _ _

theorem add_education_extends (edus : List Rec) (select : Value) (tex : String) :
    ∃ r, (add_education edus select tex).1 = tex ++ r := by
  unfold add_education
  split
  · exact ⟨"", (String.append_empty tex).symm⟩
  · exact add_section_extends _ _ _ _ _

theorem add_projects_extends (ps : List Rec) (select : Value) (tex : String) :
    ∃ r, (add_projects ps select tex).1 = tex ++ r := by
  unfold add_projects
  split
  · exact ⟨"", (String.append_empty tex).symm⟩
  split
  · exact ⟨"", (String.append_empty tex).symm⟩
  · exact ⟨_, rfl⟩

theorem add_certificates_extends (cs : List Rec) (select : Value) (tex : String) :
    ∃ r, (add_certificates cs select tex).1 = tex ++ r := by
  unfold add_certificates
  split
  · exact ⟨"", (String.append_empty tex).symm⟩
  split
  · exact ⟨"", (String.append_empty tex).symm⟩
  · exact ⟨_, rfl⟩

theorem add_interests_extends (gs : List Rec) (tex : String) :
    ∃ r, (add_interests gs tex).1 = tex ++ r := by
  unfold add_interests
  split
  · exact ⟨"", (String.append_empty tex).symm⟩
  · obtain ⟨r, hr⟩ := interestsLoop_extends gs (tex ++ begin_sectionStr "INTERESTS" "rSection")
    exact ⟨begin_sectionStr "INTERESTS" "rSection" ++ r,
      by rw [hr, String.append_assoc]⟩

theorem renderDispatch_extends (name : String) (data : Value) (select : Value)
    (tex : String) : ∃ r, (renderDispatch name data select tex).1 = tex ++ r := by
  unfold renderDispatch
  split
  · exact add_header_extends _ _
  · exact add_skills_extends _ _
  · exact add_experiences_extends _ _ _
  · exact add_education_extends _ _ _
  · exact add_projects_extends _ _ _
  · exact add_certificates_extends _ _ _
  · exact add_interests_extends _ _
  · exact ⟨"", (String.append_empty tex).symm⟩

theorem renderSection_extends (root : Rec) (name : String) (select : Value)
    (st : AsmState) : ∃ r, (renderSection root name select st).1.tex = st.tex ++ r := by
  unfold renderSection
  cases hf : dataSourceFetch root name with
  | error e =>
      refine ⟨"", ?_⟩
      split <;> exact (String.append_empty _).symm
  | ok data =>
      split
      · exact renderDispatch_extends name data select st.tex
      · exact renderDispatch_extends name data select st.tex

theorem renderLoop_extends (root : Rec) (args : SelArgs) :
    ∀ (names : List String) (st : AsmState),
      ∃ r, (renderLoop root args names st).1.tex = st.tex ++ r := by
  intro names
  induction names with
  | nil =>
      intro st
      exact ⟨"", (String.append_empty st.tex).symm⟩
  | cons n rest ih =>
      intro st
      obtain ⟨r1, hr1⟩ := renderSection_extends root n (selectFor args n) st
      rcases hrs : renderSection root n (selectFor args n) st with ⟨st1, err⟩
      rw [hrs] at hr1
      cases err with
      | some e =>
          simp only [renderLoop, hrs]
          exact ⟨r1, hr1⟩
      | none =>
          simp only [renderLoop, hrs]
          obtain ⟨r2, hr2⟩ := ih st1
          exact ⟨r1 ++ r2, by rw [hr2, hr1, String.append_assoc]⟩

/-- `add_header` appends its whole block exactly when it does not raise. -/
theorem add_header_success (data : Rec) (tex : String) :
    (add_header data tex).2 = none →
    (add_header data tex).1 = tex ++ headerBlockStr data := by
  unfold add_header
  split
  · intro h
    exact absurd h (by simp)
  split
  · intro h
    exact absurd h (by simp)
  · intro _
    rfl

/-- A successful header render from the initial state fetches the header
record and appends exactly the header block to the preamble. -/
theorem header_render_success (root : Rec) :
    (renderSection root "header" .vnull asmInit).2 = none →
    ∃ hdata,
      dataSourceFetch root "header" = .ok hdata ∧
      (renderSection root "header" .vnull asmInit).1.tex
        = preambleStr ++ headerBlockStr hdata.mapOf := by
  intro hsucc
  cases hf : dataSourceFetch root "header" with
  | error e =>
      exfalso
      unfold renderSection at hsucc
      rw [hf] at hsucc
      exact absurd hsucc (by simp)
  | ok hdata =>
      refine ⟨hdata, rfl, ?_⟩
      unfold renderSection at hsucc ⊢
      rw [hf] at hsucc ⊢
      exact add_header_success hdata.mapOf preambleStr hsucc

/-- C6: the header is always emitted before the document body is opened,
regardless of where "header" appears in the requested order: on a successful
header render the buffer is exactly preamble, then the header block, then the
body-open marker, then the body; and if the header render fails, the
assembly stops before the body is opened at all. -/
theorem header_emitted_before_body :
    (∀ (root : Rec) (args : SelArgs) (sections : Option (List String)),
        (sections.getD registryKeys).contains "header" = true →
        ((sections.getD registryKeys).any fun s => !registryKeys.contains s) = false →
        (renderSection root "header" .vnull asmInit).2 = none →
        ∃ hdata rest,
          dataSourceFetch root "header" = .ok hdata ∧
          (create_resume root args sections).1.tex
            = preambleStr ++ headerBlockStr hdata.mapOf
              ++ "\\begin\x7bdocument\x7d\n" ++ rest) ∧
    (∀ (root : Rec) (args : SelArgs) (sections : Option (List String)) (e : PyErr),
        (sections.getD registryKeys).contains "header" = true →
        ((sections.getD registryKeys).any fun s => !registryKeys.contains s) = false →
        (renderSection root "header" .vnull asmInit).2 = some e →
        create_resume root args sections
          = ((renderSection root "header" .vnull asmInit).1, some e)) := by
  constructor
  · intro root args sections hc hvalid hsucc
    obtain ⟨hdata, hf, htex⟩ := header_render_success root hsucc
    refine ⟨hdata, ?_⟩
    unfold create_resume
    rw [if_neg (show ¬ ((sections.getD registryKeys).any
          fun s => !registryKeys.contains s) = true by
        rw [hvalid]; exact Bool.false_ne_true)]
    rw [if_pos hc]
    rcases hrs : renderSection root "header" .vnull asmInit with ⟨stH, eH⟩
    rw [hrs] at hsucc htex
    subst hsucc
    have htex2 : stH.tex = preambleStr ++ headerBlockStr hdata.mapOf := htex
    dsimp only
    rcases hloop : renderLoop root args
        (((sections.getD registryKeys)).filter (fun s => s ≠ "header"))
        { stH with tex := stH.tex ++ "\\begin\x7bdocument\x7d\n" } with ⟨st3, e3⟩
    obtain ⟨r2, hr2⟩ :=
      renderLoop_extends root args
        (((sections.getD registryKeys)).filter (fun s => s ≠ "header"))
        { stH with tex := stH.tex ++ "\\begin\x7bdocument\x7d\n" }
    rw [hloop] at hr2
    have hr2b : st3.tex = stH.tex ++ "\\begin\x7bdocument\x7d\n" ++ r2 := hr2
    cases e3 with
    | some e =>
        refine ⟨r2, hf, ?_⟩
        dsimp only
        rw [hr2b, htex2]
    | none =>
        refine ⟨r2 ++ "\\end\x7bdocument\x7d\n", hf, ?_⟩
        dsimp only
        rw [hr2b, htex2, String.append_assoc]
  · intro root args sections e hc hvalid hfail
    unfold create_resume
    rw [if_neg (show ¬ ((sections.getD registryKeys).any
          fun s => !registryKeys.contains s) = true by
        rw [hvalid]; exact Bool.false_ne_true)]
    rw [if_pos hc]
    rcases hrs : renderSection root "header" .vnull asmInit with ⟨stH, eH⟩
    rw [hrs] at hfail
    subst hfail
    rfl

/-- C6 witness: a concrete assembly whose requested order lists "header"
after another section still opens the body only after the header block. -/
theorem header_emitted_before_body_witness :
    ∃ hdata rest,
      dataSourceFetch emptySkillsRoot "header" = .ok hdata ∧
      (create_resume emptySkillsRoot {} (some ["skills", "header"])).1.tex
        = preambleStr ++ headerBlockStr hdata.mapOf
          ++ "\\begin\x7bdocument\x7d\n" ++ rest :=
  header_emitted_before_body.1 emptySkillsRoot {} (some ["skills", "header"])
    rfl rfl rfl

/-!  C7: the data-source instance cache versus the per-render fetch. -/

/-- Every render of a section evaluates the `data` property: one fresh
fetch + validation is logged unconditionally. -/
theorem renderSection_fetches (root : Rec) (name : String) (select : Value)
    (st : AsmState) :
    (renderSection root name select st).1.fetches = st.fetches ++ [name] := by
  unfold renderSection
  cases hf : dataSourceFetch root name with
  | error e =>
      dsimp only
      split <;> rfl
  | ok data =>
      dsimp only
      split <;> rfl

/-- The constructed-data-source cache after a render: unchanged on a cache
hit, extended by the section name on a miss. -/
theorem renderSection_constructed (root : Rec) (name : String) (select : Value)
    (st : AsmState) :
    (renderSection root name select st).1.constructed
      = (if st.constructed.contains name = true then st.constructed
         else st.constructed ++ [name]) := by
  by_cases hc : st.constructed.contains name = true
  · rw [if_pos hc]
    unfold renderSection
    rw [if_pos hc]
    cases hf : dataSourceFetch root name <;> rfl
  · rw [if_neg hc]
    unfold renderSection
    rw [if_neg hc]
    cases hf : dataSourceFetch root name <;> rfl

/-- A render preserves the at-most-once invariant of the instance cache. -/
theorem renderSection_count_le_one (root : Rec) (name : String) (select : Value)
    (st : AsmState) (h : ∀ n, st.constructed.count n ≤ 1) :
    ∀ n, ((renderSection root name select st).1.constructed).count n ≤ 1 := by
  intro n
  rw [renderSection_constructed]
  by_cases hc : st.constructed.contains name = true
  · rw [if_pos hc]
    exact h n
  · rw [if_neg hc, List.count_append]
    rw [Bool.not_eq_true] at hc
    by_cases hn : n = name
    · subst hn
      have hmem : n ∉ st.constructed := by simpa using hc
      have hz : st.constructed.count n = 0 := List.count_eq_zero.mpr hmem
      simp [hz]
    · have hz : List.count n [name] = 0 := by simp [List.count_eq_zero, hn]
      have := h n
      omega

/-- The body loop preserves the at-most-once invariant. -/
theorem renderLoop_count_le_one (root : Rec) (args : SelArgs) :
    ∀ (names : List String) (st : AsmState),
      (∀ n, st.constructed.count n ≤ 1) →
      ∀ n, ((renderLoop root args names st).1.constructed).count n ≤ 1 := by
  intro names
  induction names with
  | nil =>
      intro st h n
      exact h n
  | cons m rest ih =>
      intro st h n
      rcases hrs : renderSection root m (selectFor args m) st with ⟨st1, err⟩
      have h1 : ∀ k, st1.constructed.count k ≤ 1 := by
        intro k
        have hk := renderSection_count_le_one root m (selectFor args m) st h k
        rw [hrs] at hk
        exact hk
      simp only [renderLoop, hrs]
      cases err with
      | some e => exact h1 n
      | none => exact ih st1 h1 n

/-- C7 (amended): the data-source *object* is cached — it is constructed at
most once per section per document instance — but the validated data is not:
every render of a section evaluates the `data` property again, performing a
fresh fetch and validation. -/
theorem datasource_instance_cached_but_data_refetched :
    (∀ (root : Rec) (name : String) (select : Value) (st : AsmState),
        (renderSection root name select st).1.fetches = st.fetches ++ [name]) ∧
    (∀ (root : Rec) (name : String) (select : Value) (st : AsmState),
        st.constructed.contains name = true →
        (renderSection root name select st).1.constructed = st.constructed) ∧
    (∀ (root : Rec) (args : SelArgs) (sections : Option (List String)) (n : String),
        ((create_resume root args sections).1.constructed).count n ≤ 1) := by
  refine ⟨renderSection_fetches, ?_, ?_⟩
  · intro root name select st hc
    rw [renderSection_constructed, if_pos hc]
  · intro root args sections n
    unfold create_resume
    dsimp only
    split
    · simp [asmInit]
    rcases hh : (if (sections.getD registryKeys).contains "header" = true
        then renderSection root "header" .vnull asmInit
        else (asmInit, none)) with ⟨st1, e1⟩
    have h1 : ∀ k, st1.constructed.count k ≤ 1 := by
      intro k
      by_cases hc : (sections.getD registryKeys).contains "header" = true
      · rw [if_pos hc] at hh
        have hk := renderSection_count_le_one root "header" .vnull asmInit
          (by intro m; simp [asmInit]) k
        rw [hh] at hk
        exact hk
      · rw [if_neg hc] at hh
        injection hh with hh1 hh2
        rw [← hh1]
        simp [asmInit]
    cases e1 with
    | some e =>
        dsimp only
        exact h1 n
    | none =>
        dsimp only
        rcases hloop : renderLoop root args
            (((sections.getD registryKeys)).filter (fun s => s ≠ "header"))
            { st1 with tex := st1.tex ++ "\\begin\x7bdocument\x7d\n" } with ⟨st3, e3⟩
        have h3 : ∀ k, st3.constructed.count k ≤ 1 := by
          intro k
          have hk := renderLoop_count_le_one root args
            (((sections.getD registryKeys)).filter (fun s => s ≠ "header"))
            { st1 with tex := st1.tex ++ "\\begin\x7bdocument\x7d\n" }
            (by intro m; exact h1 m) k
          rw [hloop] at hk
          exact hk
        cases e3 with
        | some e => exact h3 n
        | none => exact h3 n

/-- C7 counterexample: rendering the same section twice in one assembly
performs the fetch + validation twice (the run succeeds because the skills
list is empty, so its renderer appends nothing and raises nothing), refuting
the claim that the cached validated data is reused on the second render. -/
theorem duplicate_render_refetches :
    ((create_resume emptySkillsRoot {}
        (some ["header", "skills", "skills"])).1.fetches).count "skills" = 2
      ∧ (create_resume emptySkillsRoot {} (some ["header", "skills", "skills"])).2
        = none :=
  ⟨rfl, rfl⟩

/-- C7 witness: the fetch log, the cache hit and the at-most-once
construction at concrete inputs. -/
theorem datasource_instance_cached_but_data_refetched_witness :
    (renderSection emptySkillsRoot "skills" .vnull asmInit).1.fetches
        = asmInit.fetches ++ ["skills"]
      ∧ (renderSection emptySkillsRoot "skills" .vnull
            { tex := "", constructed := ["skills"], fetches := [] }).1.constructed
        = ["skills"]
      ∧ ((create_resume emptySkillsRoot {}
            (some ["skills", "skills"])).1.constructed).count "skills" ≤ 1 :=
  ⟨datasource_instance_cached_but_data_refetched.1 emptySkillsRoot "skills" .vnull asmInit,
   datasource_instance_cached_but_data_refetched.2.1 emptySkillsRoot "skills" .vnull
     { tex := "", constructed := ["skills"], fetches := [] } rfl,
   datasource_instance_cached_but_data_refetched.2.2 emptySkillsRoot {}
     (some ["skills", "skills"]) "skills"⟩

end ResumeModel
